import Mathlib

/-!
Verification of the library-management system (Flask + JSON-file store).

The definitions below are a shallow embedding of the Python sources:
  src/utils.py   — is_valid_isbn, validate_book, load_data, save_data, delete_record
  src/app.py     — the transactions() borrow and branch for returns, delete_transaction,
                   delete_book, generate_report_data (overdue branch)
  src/auth.py    — register_user, delete_user

Calendar dates: the Python code stores ISO dates as strings and parses them
with strptime on use; here dates are represented directly by the structure
Date, and comparison and subtraction go through a day-number conversion,
which agrees with the comparison and subtraction of Python date objects on
valid dates.
-/

namespace LMS

/-! ## Calendar dates -/

structure Date where
  year : Nat
  month : Nat
  day : Nat
deriving DecidableEq, Repr

def isLeapYear (y : Nat) : Bool :=
  y % 4 == 0 && (y % 100 != 0 || y % 400 == 0)

/-- Cumulative day count before the 1-based month m in year y. -/
def daysBeforeMonth (y m : Nat) : Nat :=
  let base := [0, 31, 59, 90, 120, 151, 181, 212, 243, 273, 304, 334].getD (m - 1) 0
  if 2 < m && isLeapYear y then base + 1 else base

/-- Days since the proleptic-Gregorian epoch; linearises date comparison. -/
def Date.toDayNumber (d : Date) : Nat :=
  365 * (d.year - 1) + (d.year - 1) / 4 - (d.year - 1) / 100 + (d.year - 1) / 400
    + daysBeforeMonth d.year d.month + d.day

/-- Difference in days between two dates, as in Python (a - b).days . -/
def Date.sub (a b : Date) : Int :=
  (a.toDayNumber : Int) - (b.toDayNumber : Int)

/-! ## ISBN validation (src/utils.py, is_valid_isbn) -/

/-- Mirrors re.sub stripping every character outside 0-9 and X after upper-casing. -/
def isbnDigits (s : String) : List Char :=
  (s.toList.map Char.toUpper).filter (fun c => c.isDigit || c == 'X')

def isbnCharVal (c : Char) : Nat :=
  if c == 'X' then 10 else c.toNat - 48

def isbn10Checksum (cs : List Char) : Nat :=
  (cs.enum.map (fun p => (10 - p.1) * isbnCharVal p.2)).sum

def isbn13Checksum (cs : List Char) : Nat :=
  (cs.enum.map (fun p => (if p.1 % 2 == 1 then 3 else 1) * isbnCharVal p.2)).sum

def is_valid_isbn (s : String) : Bool :=
  if s = "" then false
  else
    let cs := isbnDigits s
    if cs.length = 10 then
      (cs.take 9).all Char.isDigit && isbn10Checksum cs % 11 == 0
    else if cs.length = 13 then
      cs.all Char.isDigit && isbn13Checksum cs % 10 == 0
    else false

/-! ## Book validation (src/utils.py, validate_book)

A candidate book as assembled by the books() and edit_book() routes: the
three text fields and an integer quantity.  A missing form field is none.
Python truthiness is preserved: the required-field loop tests
(field not in book or not book[field]), where the empty string and the
integer 0 are falsy. -/

structure BookForm where
  title : Option String
  author : Option String
  isbn : Option String
  quantity : Option Int
deriving DecidableEq, Repr

/-- Python str.strip: remove leading and trailing whitespace. -/
def pyStrip (s : String) : List Char :=
  ((s.toList.dropWhile Char.isWhitespace).reverse.dropWhile Char.isWhitespace).reverse

/-- The required-field test for a string field: absent or falsy (empty). -/
def strFieldMissing (o : Option String) : Bool :=
  match o with
  | none => true
  | some s => s == ""

/-- The required-field test for the quantity field: absent or falsy (zero). -/
def intFieldMissing (o : Option Int) : Bool :=
  match o with
  | none => true
  | some n => n == 0

def validate_book (b : BookForm) : Bool :=
  if strFieldMissing b.title then false
  else if strFieldMissing b.author then false
  else if strFieldMissing b.isbn then false
  else if intFieldMissing b.quantity then false
  else
    let q := b.quantity.getD 0
    if q < 0 then false
    else if pyStrip (b.title.getD ("")) = [] then false
    else if pyStrip (b.author.getD ("")) = [] then false
    else true

/-! ## Entities (data/books.json, data/members.json, data/transactions.json) -/

structure Book where
  isbn : String
  title : String
  author : String
  quantity : Int
deriving DecidableEq, Repr

structure Member where
  name : String
  email : String
  phone : String
deriving DecidableEq, Repr

structure Trans where
  id : Int
  book_isbn : String
  book_title : String
  member_email : String
  member_name : String
  borrow_date : Date
  return_date : Option Date
deriving DecidableEq, Repr

/-! ## The transactions() route of src/app.py

The POST handler loads books, members and transactions, runs the guards and
either appends or mutates a record and saves, or flashes an error message
and redirects without saving.  Both branches are embedded as functions from
the loaded collections and the sanitized form inputs to
Except errorMessage newTransactionList: an error result corresponds to a
redirect in which transactions.json is left untouched. -/

/-- Count of active loans for an ISBN: transactions with that isbn and a
falsy (null) return_date. -/
def countActive (ts : List Trans) (isbn : String) : Nat :=
  ts.countP (fun t => t.book_isbn == isbn && t.return_date.isNone)

/-- The member-overdue guard: some active loan of this member is more than
14 days old at the evaluation date. -/
def hasOverdue (ts : List Trans) (email : String) (today : Date) : Bool :=
  ts.any (fun t => t.member_email == email && t.return_date.isNone
      && 14 < Date.sub today t.borrow_date)

/-- max((t.id for t in transactions), default=0) + 1 -/
def nextId (ts : List Trans) : Int :=
  ((ts.map Trans.id).max?.getD 0) + 1

def transactions_borrow (books : List Book) (members : List Member)
    (ts : List Trans) (isbn email : String) (txDate today : Date) :
    Except String (List Trans) :=
  if isbn = "" ∨ email = "" then .error ("All fields are required.")
  else if today.toDayNumber < txDate.toDayNumber then
    .error ("Transaction date cannot be in the future.")
  else
    match books.find? (fun b => b.isbn == isbn) with
    | none => .error ("Book not found.")
    | some book =>
      match members.find? (fun m => m.email == email) with
      | none => .error ("Member not found.")
      | some member =>
        if book.quantity ≤ (countActive ts isbn : Int) then
          .error ("This book is not available for borrowing.")
        else if hasOverdue ts email today then
          .error ("Member has overdue books. Please return them first.")
        else
          .ok (ts ++ [{ id := nextId ts, book_isbn := isbn,
                        book_title := book.title, member_email := email,
                        member_name := member.name, borrow_date := txDate,
                        return_date := none }])

/-- The condition of the generator in the return branch: same book, same
member, no return date yet. -/
def isActiveLoanFor (isbn email : String) (t : Trans) : Bool :=
  t.book_isbn == isbn && t.member_email == email && t.return_date.isNone

/-- next(t for t in transactions if isbn and email match and no return_date) -/
def findActiveLoan (ts : List Trans) (isbn email : String) : Option Trans :=
  ts.find? (isActiveLoanFor isbn email)

/-- In-place mutation of the first matching active record: set return_date. -/
def setReturnDate (ts : List Trans) (isbn email : String) (d : Date) :
    List Trans :=
  match ts with
  | [] => []
  | t :: rest =>
    if isActiveLoanFor isbn email t
    then { t with return_date := some d } :: rest
    else t :: setReturnDate rest isbn email d

def transactions_return (books : List Book) (members : List Member)
    (ts : List Trans) (isbn email : String) (txDate today : Date) :
    Except String (List Trans) :=
  if isbn = "" ∨ email = "" then .error ("All fields are required.")
  else if today.toDayNumber < txDate.toDayNumber then
    .error ("Transaction date cannot be in the future.")
  else
    match books.find? (fun b => b.isbn == isbn) with
    | none => .error ("Book not found.")
    | some _book =>
      match members.find? (fun m => m.email == email) with
      | none => .error ("Member not found.")
      | some _member =>
        match findActiveLoan ts isbn email with
        | none => .error ("No active borrow record found for this book and member.")
        | some br =>
          if txDate.toDayNumber < br.borrow_date.toDayNumber then
            .error ("Return date cannot be before the borrow date.")
          else
            .ok (setReturnDate ts isbn email txDate)

/-! ## delete_transaction (src/app.py)

Result is the saved list plus the flashed (message, category).  The guard
(transaction.get return_date or transaction.get borrow_date) always takes
its first branch on records this application creates, since borrow_date is
always present and truthy; the embedding keeps borrow_date mandatory. -/

def delete_transaction (ts : List Trans) (id : Int) :
    List Trans × String × String :=
  match ts.find? (fun t => t.id == id) with
  | none => (ts, "Transaction not found!", "error")
  | some t =>
    if t.return_date.isSome then
      (ts.filter (fun u => u.id ≠ id), "Transaction deleted successfully!", "success")
    else
      (ts, "Cannot delete an active borrow transaction. Return the book first.", "error")

/-! ## Overdue report (src/app.py, generate_report_data, report_type overdue) -/

structure OverdueRow where
  book_title : String
  book_isbn : String
  member_name : String
  borrow_date : Date
  days_overdue : Int
  status : String
deriving DecidableEq, Repr

def overdueStatus (days : Int) : String :=
  if 30 < days then ("Severely Overdue")
  else if 14 < days then ("Moderately Overdue")
  else ("Slightly Overdue")

/-- The overdue branch: only non-returned transactions are examined; a row
is emitted when days_overdue = (today - borrow_date).days - 14 is positive. -/
def generate_report_overdue (ts : List Trans) (today : Date) :
    List OverdueRow :=
  ts.filterMap (fun t =>
    if t.return_date.isNone then
      let days := Date.sub today t.borrow_date - 14
      if 0 < days then
        some { book_title := t.book_title, book_isbn := t.book_isbn,
               member_name := t.member_name, borrow_date := t.borrow_date,
               days_overdue := days, status := overdueStatus days }
      else none
    else none)

/-! ## Record store (src/utils.py: secure_filename, load_data, save_data)

The file system is a total map from file paths to file contents; a file is
absent, holds bytes that fail JSON decoding, or holds a JSON array of
records.  JSON serialisation of a record list is modelled as the identity
(json.dump followed by json.load restores the same flat records), and the
advisory flock calls guard concurrency only, invisible to a single
sequential execution.  save_data returning false on an IOError is an
environmental failure outside the model: here a write always lands. -/

inductive FileContent (α : Type) where
  | absent : FileContent α
  | corrupt : FileContent α
  | records : List α → FileContent α
deriving DecidableEq, Repr

def Store (α : Type) : Type := String → FileContent α

/-- os.path.basename for POSIX paths: the suffix after the last slash. -/
def basenameChars (cs : List Char) : List Char :=
  (cs.reverse.takeWhile (fun c => c ≠ '/')).reverse

def secure_filename (filename : String) : String :=
  let base := basenameChars filename.toList
  let base := if base.reverse.take 5 = ['n', 'o', 's', 'j', '.'] then base
              else base ++ ".json".toList
  String.mk ("data/".toList ++ base)

def load_data {α : Type} (s : Store α) (filename : String) : List α :=
  match s (secure_filename filename) with
  | .absent => []
  | .corrupt => []
  | .records data => data

def save_data {α : Type} (s : Store α) (filename : String) (data : List α) :
    Store α × Bool :=
  (fun p => if p = secure_filename filename then .records data else s p, true)

/-! ## delete_record (src/utils.py) and delete_book (src/app.py) -/

/-- Load, drop every record whose key field equals the value, save, and
report True unconditionally. -/
def delete_record {α : Type} (s : Store α) (filename : String)
    (key : α → String) (v : String) : Store α × Bool :=
  let data := load_data s filename
  ((save_data s filename (data.filter (fun item => key item ≠ v))).1, true)

/-- The /books/isbn/delete route: delete and always flash a success
(message, category) pair. -/
def delete_book (s : Store Book) (isbn : String) :
    Store Book × String × String :=
  ((delete_record s ("books.json") Book.isbn isbn).1,
   "Book deleted successfully!", "success")

/-! ## User accounts (src/auth.py)

users.json is a JSON object, an insertion-ordered dictionary from user id
to user data.  generate_password_hash stands in for the werkzeug hash; no
claim inspects the stored digest. -/

structure UserData where
  username : String
  email : String
  password : String
  role : String
deriving DecidableEq, Repr

abbrev Users := List (String × UserData)

def generate_password_hash (p : String) : String :=
  ("pbkdf2:sha256$") ++ p

/-- Python dict assignment users[k] = v: replace in place or append. -/
def dictSet (us : Users) (k : String) (v : UserData) : Users :=
  if us.any (fun kv => kv.1 == k) then
    us.map (fun kv => if kv.1 == k then (k, v) else kv)
  else us ++ [(k, v)]

def dictLookup (us : Users) (k : String) : Option UserData :=
  (us.find? (fun kv => kv.1 == k)).map (fun kv => kv.2)

/-- register_user: reject a duplicate username or email, otherwise store
the record under id str(len(users) + 1).  none models the False return,
under which users.json is not rewritten. -/
def register_user (us : Users) (username email password role : String) :
    Option Users :=
  if us.any (fun kv => kv.2.username == username || kv.2.email == email) then
    none
  else
    some (dictSet us (toString (us.length + 1))
      { username := username, email := email,
        password := generate_password_hash password, role := role })

/-- delete_user: reject an unknown id and the seed admin account. -/
def delete_user (us : Users) (uid : String) : Option Users :=
  match dictLookup us uid with
  | none => none
  | some u =>
    if u.email = "admin@library.com" then none
    else some (us.filter (fun kv => kv.1 ≠ uid))

/-! ## Concrete records used to instantiate the theorems -/

def bkOne : Book :=
  { isbn := "9780306406157", title := "The Pragmatic Programmer",
    author := "Hunt", quantity := 1 }

def memA : Member :=
  { name := "Alice", email := "alice@example.com", phone := "0123456789" }

def memB : Member :=
  { name := "Bob", email := "bob@example.com", phone := "0123456780" }

def day1 : Date := ⟨2024, 3, 1⟩

def trFirst : Trans :=
  { id := 1, book_isbn := "9780306406157",
    book_title := "The Pragmatic Programmer",
    member_email := "alice@example.com", member_name := "Alice",
    borrow_date := day1, return_date := none }

def bkBadIsbn : BookForm :=
  { title := some ("Valid Title"), author := some ("Valid Author"),
    isbn := some ("9780306406158"), quantity := some 1 }

def bkZeroQty : BookForm :=
  { title := some ("Valid Title"), author := some ("Valid Author"),
    isbn := some ("9780306406157"), quantity := some 0 }

def trReturnedJan : Trans :=
  { id := 3, book_isbn := "9780306406157",
    book_title := "The Pragmatic Programmer",
    member_email := "alice@example.com", member_name := "Alice",
    borrow_date := ⟨2024, 1, 1⟩, return_date := some ⟨2024, 1, 20⟩ }

def trOpenJan : Trans := { trReturnedJan with return_date := none }

def bkShelf : Book :=
  { isbn := "9780143127741", title := "The Body Keeps the Score",
    author := "van der Kolk", quantity := 3 }

def stOneBook : Store Book :=
  fun p => if p = "data/books.json" then .records [bkShelf] else .absent

def stAllAbsent : Store Book := fun _ => .absent

def stAllCorrupt : Store Trans := fun _ => .corrupt

def bkRet : Book :=
  { isbn := "9780143127741", title := "The Body Keeps the Score",
    author := "van der Kolk", quantity := 2 }

def memRet : Member :=
  { name := "Carol", email := "carol@example.com", phone := "0123456781" }

def trRet : Trans :=
  { id := 5, book_isbn := "9780143127741",
    book_title := "The Body Keeps the Score",
    member_email := "carol@example.com", member_name := "Carol",
    borrow_date := ⟨2024, 2, 1⟩, return_date := none }

def trActive7 : Trans :=
  { id := 7, book_isbn := "9780143127741",
    book_title := "The Body Keeps the Score",
    member_email := "carol@example.com", member_name := "Carol",
    borrow_date := ⟨2024, 2, 1⟩, return_date := none }

def trDone9 : Trans :=
  { id := 9, book_isbn := "9780143127741",
    book_title := "The Body Keeps the Score",
    member_email := "carol@example.com", member_name := "Carol",
    borrow_date := ⟨2024, 2, 1⟩, return_date := some ⟨2024, 2, 20⟩ }

def uAdmin : UserData :=
  { username := "admin", email := "admin@library.com",
    password := generate_password_hash ("admin123"), role := "admin" }

def uBob : UserData :=
  { username := "bob", email := "bob@library.com",
    password := generate_password_hash ("bobpw"), role := "staff" }

def uCarol : UserData :=
  { username := "carol", email := "carol@library.com",
    password := generate_password_hash ("carolpw"), role := "staff" }

def uDave : UserData :=
  { username := "dave", email := "dave@library.com",
    password := generate_password_hash ("davepw"), role := "staff" }

/-! ## Helper lemmas -/

theorem countActive_append_one (ts : List Trans) (t : Trans) (i : String) :
    countActive (ts ++ [t]) i
      = countActive ts i
        + (if t.book_isbn == i && t.return_date.isNone then 1 else 0) := by
  simp [countActive, List.countP_append, List.countP_cons]

theorem find?_key_of_nodup (books : List Book) (i : String) (b : Book)
    (hnd : (books.map Book.isbn).Nodup) (hmem : b ∈ books)
    (hbi : b.isbn = i) :
    books.find? (fun x => x.isbn == i) = some b := by
  induction books with
  | nil => cases hmem
  | cons hd tl ih =>
    rw [List.map_cons, List.nodup_cons] at hnd
    rcases List.mem_cons.mp hmem with hb | hb
    · subst hb
      exact List.find?_cons_of_pos _ (by simp [hbi])
    · have hne : hd.isbn ≠ i := by
        intro he
        exact hnd.1 (he ▸ hbi ▸ List.mem_map_of_mem Book.isbn hb)
      rw [List.find?_cons_of_neg _ (by simp [hne])]
      exact ih hnd.2 hb

/-! ## Claim C2 -/

/-- C2 counterexample: the string 9780306406158 fails the ISBN-13 checksum,
yet validate_book accepts a candidate carrying it with well-formed title,
author and quantity; validate_book never invokes is_valid_isbn. -/
theorem validate_book_accepts_invalid_isbn13 :
    is_valid_isbn ("9780306406158") = false ∧ validate_book bkBadIsbn = true :=
  ⟨by decide, by decide⟩

/-- C2 amended: validate_book does not apply the ISBN checksum; any
candidate whose isbn is non-empty is accepted whenever title and author are
non-blank and the quantity is a positive integer, even when the isbn fails
is_valid_isbn. -/
theorem validate_book_skips_isbn_checksum
    (t a i : String) (q : Int)
    (_hbad : is_valid_isbn i = false)
    (ht : pyStrip t ≠ []) (ha : pyStrip a ≠ []) (hi : i ≠ "") (hq : 1 ≤ q) :
    validate_book
      { title := some t, author := some a, isbn := some i,
        quantity := some q } = true := by
  have ht0 : t ≠ "" := by
    intro h
    subst h
    exact ht rfl
  have ha0 : a ≠ "" := by
    intro h
    subst h
    exact ha rfl
  have hq0 : q ≠ 0 := by omega
  have hq1 : ¬ q < 0 := by omega
  simp [validate_book, strFieldMissing, intFieldMissing,
        ht0, ha0, hi, hq0, hq1, ht, ha]

/-- C2 witness: the amended statement applied to the concrete candidate. -/
theorem validate_book_skips_isbn_checksum_witness :
    validate_book bkBadIsbn = true :=
  validate_book_skips_isbn_checksum ("Valid Title") "Valid Author"
    ("9780306406158") 1 (by decide) (by decide) (by decide) (by decide)
    (by decide)

/-! ## Claim C8 -/

/-- C8: evaluating validate_book at the failing input: a candidate with
non-blank title and author, a present isbn and integer quantity 0 is
rejected (the required-field loop treats the falsy integer 0 as a missing
field, although the explicit range check would accept it), while the same
candidate with quantity 1 is accepted. -/
theorem validate_book_rejects_zero_quantity :
    validate_book bkZeroQty = false
      ∧ validate_book { bkZeroQty with quantity := some 1 } = true :=
  ⟨by decide, by decide⟩

/-! ## Claim C5 -/

/-- C5: saving a record list under a collection name and immediately
loading the same name returns the identical list, for every store state,
collection name and record type. -/
theorem save_then_load_roundtrip :
    ∀ (α : Type) (s : Store α) (filename : String) (data : List α),
      load_data (save_data s filename data).1 filename = data := by
  intro α s f d
  simp [load_data, save_data]

/-! ## Claim C9 -/

/-- C9: load_data yields the empty list both when the file at the
normalized path is absent and when its content fails JSON decoding; in
either case the caller receives a plain empty collection, with no error
value in the result type. -/
theorem load_data_absent_or_corrupt_is_empty :
    ∀ (α : Type) (s : Store α) (filename : String),
      (s (secure_filename filename) = .absent → load_data s filename = []) ∧
      (s (secure_filename filename) = .corrupt → load_data s filename = []) := by
  intro α s f
  constructor <;> intro h <;> simp [load_data, h]

/-- C9 witness: a store with every file absent, and one with every file
corrupt, both load as empty collections. -/
theorem load_data_absent_or_corrupt_is_empty_witness :
    load_data stAllAbsent ("books.json") = []
      ∧ load_data stAllCorrupt ("transactions.json") = [] :=
  ⟨(load_data_absent_or_corrupt_is_empty Book stAllAbsent ("books.json")).1 rfl,
   (load_data_absent_or_corrupt_is_empty Trans stAllCorrupt
      "transactions.json").2 rfl⟩

/-! ## Claim C4 -/

/-- C4 counterexample: deleting an ISBN that matches no stored book leaves
the books collection unchanged, but the caller is told the deletion
succeeded (delete_record returns True unconditionally and delete_book
always flashes the success message); not-found is never reported. -/
theorem delete_book_missing_key_reports_success :
    load_data (delete_book stOneBook ("0000000000")).1 ("books.json")
        = [bkShelf]
      ∧ (delete_book stOneBook ("0000000000")).2.1
        = "Book deleted successfully!"
      ∧ (delete_book stOneBook ("0000000000")).2.2 = "success" :=
  ⟨by decide, rfl, rfl⟩

/-- C4 amended: for every collection and key value matching no record, the
delete operation leaves the persisted collection unchanged, but it reports
success to the caller (True from delete_record, a success flash from
delete_book), not not-found. -/
theorem delete_missing_key_noop_reports_success :
    (∀ (α : Type) (s : Store α) (filename : String) (key : α → String)
       (v : String),
       (∀ x ∈ load_data s filename, key x ≠ v) →
       (delete_record s filename key v).2 = true ∧
       load_data (delete_record s filename key v).1 filename
         = load_data s filename) ∧
    (∀ (s : Store Book) (isbn : String),
       (∀ b ∈ load_data s ("books.json"), b.isbn ≠ isbn) →
       (delete_book s isbn).2.1 = "Book deleted successfully!" ∧
       (delete_book s isbn).2.2 = "success" ∧
       load_data (delete_book s isbn).1 ("books.json")
         = load_data s ("books.json")) := by
  have hA : ∀ (α : Type) (s : Store α) (filename : String) (key : α → String)
      (v : String),
      (∀ x ∈ load_data s filename, key x ≠ v) →
      (delete_record s filename key v).2 = true ∧
      load_data (delete_record s filename key v).1 filename
        = load_data s filename := by
    intro α s f key v h
    refine ⟨rfl, ?_⟩
    have hf : (load_data s f).filter (fun item => key item ≠ v)
        = load_data s f :=
      List.filter_eq_self.mpr (fun a ha => by simpa using h a ha)
    have hrt : ∀ (data : List α), load_data (save_data s f data).1 f = data := by
      intro data
      simp [load_data, save_data]
    calc load_data (delete_record s f key v).1 f
        = (load_data s f).filter (fun item => key item ≠ v) := hrt _
      _ = load_data s f := hf
  refine ⟨hA, ?_⟩
  intro s isbn h
  exact ⟨rfl, rfl, (hA Book s ("books.json") Book.isbn isbn h).2⟩

/-- C4 witness: the amended statement applied to the one-book store and an
absent key. -/
theorem delete_missing_key_noop_reports_success_witness :
    load_data (delete_book stOneBook ("0000000000")).1 ("books.json")
      = load_data stOneBook ("books.json") :=
  (delete_missing_key_noop_reports_success.2 stOneBook ("0000000000")
    (by decide)).2.2

/-! ## Claim C10 -/

/-- C10: register_user assigns id str(len(users) + 1); starting from the
empty store, three registrations create ids 1, 2, 3, deleting id 2 leaves
ids 1 and 3, and the next successful registration is assigned id 3 again:
it silently overwrites the existing user record (the user count stays 2 and
the overwritten record is gone), so id uniqueness is not an invariant of
register and delete sequences. -/
theorem register_user_reuses_id_after_delete :
    register_user [] ("admin") ("admin@library.com") ("admin123") ("admin")
      = some [("1", uAdmin)] ∧
    register_user [("1", uAdmin)] ("bob") ("bob@library.com") ("bobpw")
        ("staff")
      = some [("1", uAdmin), ("2", uBob)] ∧
    register_user [("1", uAdmin), ("2", uBob)] ("carol")
        ("carol@library.com") ("carolpw") ("staff")
      = some [("1", uAdmin), ("2", uBob), ("3", uCarol)] ∧
    delete_user [("1", uAdmin), ("2", uBob), ("3", uCarol)] ("2")
      = some [("1", uAdmin), ("3", uCarol)] ∧
    register_user [("1", uAdmin), ("3", uCarol)] ("dave")
        ("dave@library.com") ("davepw") ("staff")
      = some [("1", uAdmin), ("3", uDave)] ∧
    ([("1", uAdmin), ("3", uDave)] : Users).length
      = ([("1", uAdmin), ("3", uCarol)] : Users).length ∧
    dictLookup [("1", uAdmin), ("3", uDave)] ("3") = some uDave ∧
    (([("1", uAdmin), ("3", uDave)] : Users).all
        (fun kv => kv.2 ≠ uCarol)) = true :=
  ⟨by decide, by decide, by decide, by decide, by decide, rfl, by decide,
   by decide⟩

/-! ## Claim C3 -/

/-- C3 counterexample: the transaction borrowed 2024-01-01 and returned
2024-01-20, evaluated at 2024-01-20, produces no overdue row at all — the
overdue branch skips every transaction with a non-null return_date, so it
is not classified slightly overdue. -/
theorem overdue_report_excludes_returned :
    generate_report_overdue [trReturnedJan] ⟨2024, 1, 20⟩ = [] := by decide

/-- C3 amended: the overdue classification applies only to open loans
(null return_date), with days-over = (today - borrow_date) - 14: the loan
is excluded from the report when days-over is not positive, reported
Slightly Overdue up to 14, Moderately Overdue up to 30 and Severely
Overdue beyond; a returned transaction is excluded outright, whatever its
dates.  The open loan borrowed 2024-01-01 is slightly overdue (5 days
over) at 2024-01-20, and at 2024-01-15, exactly 14 days old, it is not
overdue. -/
theorem overdue_tiers_open_loans_only :
    (∀ (t : Trans) (today : Date), t.return_date = none →
       (Date.sub today t.borrow_date - 14 ≤ 0 →
          generate_report_overdue [t] today = []) ∧
       (0 < Date.sub today t.borrow_date - 14 →
        Date.sub today t.borrow_date - 14 ≤ 14 →
          generate_report_overdue [t] today
            = [{ book_title := t.book_title, book_isbn := t.book_isbn,
                 member_name := t.member_name,
                 borrow_date := t.borrow_date,
                 days_overdue := Date.sub today t.borrow_date - 14,
                 status := "Slightly Overdue" }]) ∧
       (14 < Date.sub today t.borrow_date - 14 →
        Date.sub today t.borrow_date - 14 ≤ 30 →
          generate_report_overdue [t] today
            = [{ book_title := t.book_title, book_isbn := t.book_isbn,
                 member_name := t.member_name,
                 borrow_date := t.borrow_date,
                 days_overdue := Date.sub today t.borrow_date - 14,
                 status := "Moderately Overdue" }]) ∧
       (30 < Date.sub today t.borrow_date - 14 →
          generate_report_overdue [t] today
            = [{ book_title := t.book_title, book_isbn := t.book_isbn,
                 member_name := t.member_name,
                 borrow_date := t.borrow_date,
                 days_overdue := Date.sub today t.borrow_date - 14,
                 status := "Severely Overdue" }])) ∧
    (∀ (t : Trans) (today : Date), t.return_date ≠ none →
       generate_report_overdue [t] today = []) ∧
    generate_report_overdue [trOpenJan] ⟨2024, 1, 20⟩
      = [{ book_title := "The Pragmatic Programmer",
           book_isbn := "9780306406157", member_name := "Alice",
           borrow_date := ⟨2024, 1, 1⟩, days_overdue := 5,
           status := "Slightly Overdue" }] ∧
    generate_report_overdue [trOpenJan] ⟨2024, 1, 15⟩ = [] := by
  refine ⟨?_, ?_, by decide, by decide⟩
  · intro t today h
    refine ⟨?_, ?_, ?_, ?_⟩
    · intro h0
      simp [generate_report_overdue, h]
      omega
    · intro h1 h2
      have hg : 14 < Date.sub today t.borrow_date := by omega
      have h30 : ¬ 30 < Date.sub today t.borrow_date - 14 := by omega
      have h14 : ¬ 14 < Date.sub today t.borrow_date - 14 := by omega
      simp [generate_report_overdue, h, hg, overdueStatus, h30, h14]
    · intro h1 h2
      have hg : 14 < Date.sub today t.borrow_date := by omega
      have h30 : ¬ 30 < Date.sub today t.borrow_date - 14 := by omega
      simp [generate_report_overdue, h, hg, overdueStatus, h30, h1]
    · intro h1
      have hg : 14 < Date.sub today t.borrow_date := by omega
      simp [generate_report_overdue, h, hg, overdueStatus, h1]
  · intro t today h
    simp [generate_report_overdue, h]

/-- C3 witness: the tier statement applied to the concrete open loan ten
days past the grace period. -/
theorem overdue_tiers_open_loans_only_witness :
    generate_report_overdue [trOpenJan] ⟨2024, 1, 25⟩
      = [{ book_title := "The Pragmatic Programmer",
           book_isbn := "9780306406157", member_name := "Alice",
           borrow_date := ⟨2024, 1, 1⟩, days_overdue := 10,
           status := "Slightly Overdue" }] :=
  (overdue_tiers_open_loans_only.1 trOpenJan ⟨2024, 1, 25⟩ rfl).2.1
    (by decide) (by decide)

/-! ## Claim C6 -/

theorem findActiveLoan_decomp (isbn email : String) (d : Date) :
    ∀ (ts : List Trans) (br : Trans),
      findActiveLoan ts isbn email = some br →
      ∃ pre post, ts = pre ++ br :: post ∧
        (∀ u ∈ pre, isActiveLoanFor isbn email u = false) ∧
        isActiveLoanFor isbn email br = true ∧
        setReturnDate ts isbn email d
          = pre ++ { br with return_date := some d } :: post := by
  intro ts
  induction ts with
  | nil =>
    intro br h
    simp [findActiveLoan] at h
  | cons hd tl ih =>
    intro br h
    cases hp : isActiveLoanFor isbn email hd with
    | true =>
      rw [findActiveLoan, List.find?_cons_of_pos _ hp] at h
      injection h with h
      subst h
      refine ⟨[], tl, rfl, by simp, hp, ?_⟩
      simp [setReturnDate, hp]
    | false =>
      rw [findActiveLoan, List.find?_cons_of_neg _ (by simp [hp])] at h
      obtain ⟨pre, post, h1, h2, h3, h4⟩ := ih br h
      refine ⟨hd :: pre, post, by simp [h1], ?_, h3, ?_⟩
      · intro u hu
        rcases List.mem_cons.mp hu with hu | hu
        · subst hu
          exact hp
        · exact h2 u hu
      · simp [setReturnDate, hp, h4]

/-- C6: a return request is accepted only when some transaction for that
exact isbn and member pair is still active and the requested date is not
before its borrow date; on acceptance the first such record, and only it,
gets its return_date set to the requested date in place: the list around
it is untouched and its length is preserved.  A rejection is an error
result, under which the handler redirects without saving. -/
theorem return_mutates_first_active_loan :
    ∀ (books : List Book) (members : List Member) (ts : List Trans)
      (isbn email : String) (txDate today : Date) (ts2 : List Trans),
      transactions_return books members ts isbn email txDate today
        = .ok ts2 →
      ∃ pre br post,
        ts = pre ++ br :: post ∧
        (∀ u ∈ pre, isActiveLoanFor isbn email u = false) ∧
        br.book_isbn = isbn ∧ br.member_email = email ∧
        br.return_date = none ∧
        br.borrow_date.toDayNumber ≤ txDate.toDayNumber ∧
        ts2 = pre ++ { br with return_date := some txDate } :: post ∧
        ts2.length = ts.length := by
  intro books members ts isbn email txDate today ts2 h
  unfold transactions_return at h
  split at h
  · exact Except.noConfusion h
  split at h
  · exact Except.noConfusion h
  cases hb : books.find? (fun b => b.isbn == isbn) with
  | none =>
    simp only [hb] at h
    exact Except.noConfusion h
  | some book =>
    simp only [hb] at h
    cases hm : members.find? (fun m => m.email == email) with
    | none =>
      simp only [hm] at h
      exact Except.noConfusion h
    | some member =>
      simp only [hm] at h
      cases hf : findActiveLoan ts isbn email with
      | none =>
        simp only [hf] at h
        exact Except.noConfusion h
      | some br =>
        simp only [hf] at h
        split at h
        · exact Except.noConfusion h
        next hge =>
        injection h with h
        obtain ⟨pre, post, h1, h2, h3, h4⟩ :=
          findActiveLoan_decomp isbn email txDate ts br hf
        simp only [isActiveLoanFor, Bool.and_eq_true, beq_iff_eq,
          Option.isNone_iff_eq_none] at h3
        refine ⟨pre, br, post, h1, h2, h3.1.1, h3.1.2, h3.2,
          Nat.not_lt.mp hge, ?_, ?_⟩
        · rw [← h, h4]
        · rw [← h, h4, h1]
          simp

/-- C6 witness: the characterization applied to a concrete accepted
return. -/
theorem return_mutates_first_active_loan_witness :
    ∃ pre br post,
      [trRet] = pre ++ br :: post ∧
      (∀ u ∈ pre,
        isActiveLoanFor ("9780143127741") ("carol@example.com") u = false) ∧
      br.book_isbn = "9780143127741" ∧
      br.member_email = "carol@example.com" ∧
      br.return_date = none ∧
      br.borrow_date.toDayNumber ≤ (Date.mk 2024 2 10).toDayNumber ∧
      [{ trRet with return_date := some ⟨2024, 2, 10⟩ }]
        = pre ++ { br with return_date := some ⟨2024, 2, 10⟩ } :: post ∧
      ([{ trRet with return_date := some ⟨2024, 2, 10⟩ }] : List Trans).length
        = [trRet].length :=
  return_mutates_first_active_loan [bkRet] [memRet] [trRet]
    ("9780143127741") ("carol@example.com") ⟨2024, 2, 10⟩ ⟨2024, 2, 10⟩
    [{ trRet with return_date := some ⟨2024, 2, 10⟩ }] rfl

/-! ## Claim C7 -/

/-- C7: delete_transaction removes a record only when its return_date is
non-null; an id matching no transaction, or matching an active loan, is
rejected with its specific flashed message and the collection is returned
unchanged; and a success flash implies a returned transaction with that id
was present. -/
theorem delete_transaction_only_returned :
    ∀ (ts : List Trans) (id : Int),
      ((∀ t ∈ ts, t.id ≠ id) →
         delete_transaction ts id
           = (ts, "Transaction not found!", "error")) ∧
      (∀ t, ts.find? (fun u => u.id == id) = some t →
         t.return_date = none →
         delete_transaction ts id
           = (ts,
              "Cannot delete an active borrow transaction. Return the book first.",
              "error")) ∧
      (∀ t, ts.find? (fun u => u.id == id) = some t →
         t.return_date ≠ none →
         delete_transaction ts id
           = (ts.filter (fun u => u.id ≠ id),
              "Transaction deleted successfully!", "success")) ∧
      ((delete_transaction ts id).2.2 = "success" →
         ∃ t ∈ ts, t.id = id ∧ t.return_date ≠ none) := by
  intro ts id
  refine ⟨?_, ?_, ?_, ?_⟩
  · intro h
    have hn : ts.find? (fun u => u.id == id) = none :=
      List.find?_eq_none.mpr (fun x hx => by simpa using h x hx)
    simp [delete_transaction, hn]
  · intro t hf hr
    simp [delete_transaction, hf, hr]
  · intro t hf hr
    have hs : t.return_date.isSome = true := Option.isSome_iff_ne_none.mpr hr
    simp [delete_transaction, hf, hs]
  · intro h
    unfold delete_transaction at h
    cases hf : ts.find? (fun u => u.id == id) with
    | none =>
      simp only [hf] at h
      simp at h
    | some t =>
      simp only [hf] at h
      cases hs : t.return_date.isSome with
      | false =>
        simp only [hs] at h
        simp at h
      | true =>
        exact ⟨t, List.mem_of_find?_eq_some hf,
          by simpa using List.find?_some hf,
          Option.isSome_iff_ne_none.mp hs⟩

/-- C7 witness: deleting a returned transaction by its id succeeds and
removes exactly that record. -/
theorem delete_transaction_only_returned_witness :
    delete_transaction [trDone9] 9
      = ([], "Transaction deleted successfully!", "success") :=
  (delete_transaction_only_returned [trDone9] 9).2.2.1 trDone9 rfl
    (by decide)

/-! ## Claim C1 -/

theorem borrow_ok_inversion
    (books : List Book) (members : List Member) (ts : List Trans)
    (isbn email : String) (txDate today : Date) (ts2 : List Trans)
    (h : transactions_borrow books members ts isbn email txDate today
      = .ok ts2) :
    ∃ book member,
      books.find? (fun x => x.isbn == isbn) = some book ∧
      members.find? (fun m => m.email == email) = some member ∧
      (countActive ts isbn : Int) < book.quantity ∧
      ts2 = ts ++ [{ id := nextId ts, book_isbn := isbn,
                     book_title := book.title, member_email := email,
                     member_name := member.name, borrow_date := txDate,
                     return_date := none }] := by
  unfold transactions_borrow at h
  split at h
  · exact Except.noConfusion h
  split at h
  · exact Except.noConfusion h
  cases hb : books.find? (fun b => b.isbn == isbn) with
  | none =>
    simp only [hb] at h
    exact Except.noConfusion h
  | some book =>
    simp only [hb] at h
    cases hm : members.find? (fun m => m.email == email) with
    | none =>
      simp only [hm] at h
      exact Except.noConfusion h
    | some member =>
      simp only [hm] at h
      split at h
      · exact Except.noConfusion h
      next hq =>
      split at h
      · exact Except.noConfusion h
      injection h with h
      exact ⟨book, member, rfl, rfl, Int.not_le.mp hq, h.symm⟩

/-- C1: once a borrow is accepted, the active-loan count of the borrowed
ISBN stays within the quantity of its book record, and, assuming unique
ISBNs and the bound held beforehand, it holds for every book afterwards: a
request that would break the bound is answered by the availability error
and appends nothing.  Concretely, with quantity 1 and no active loans a
first borrow succeeds and an immediate second borrow of the same ISBN by
another member is rejected with the availability error. -/
theorem borrow_enforces_quantity_bound :
    (∀ (books : List Book) (members : List Member) (ts : List Trans)
       (isbn email : String) (txDate today : Date) (ts2 : List Trans)
       (b : Book),
       transactions_borrow books members ts isbn email txDate today
         = .ok ts2 →
       books.find? (fun x => x.isbn == isbn) = some b →
       (countActive ts2 isbn : Int) ≤ b.quantity) ∧
    (∀ (books : List Book) (members : List Member) (ts : List Trans)
       (isbn email : String) (txDate today : Date) (ts2 : List Trans),
       (books.map Book.isbn).Nodup →
       (∀ b ∈ books, (countActive ts b.isbn : Int) ≤ b.quantity) →
       transactions_borrow books members ts isbn email txDate today
         = .ok ts2 →
       ∀ b ∈ books, (countActive ts2 b.isbn : Int) ≤ b.quantity) ∧
    transactions_borrow [bkOne] [memA, memB] [] ("9780306406157")
        ("alice@example.com") day1 day1 = .ok [trFirst] ∧
    transactions_borrow [bkOne] [memA, memB] [trFirst] ("9780306406157")
        ("bob@example.com") day1 day1
      = .error ("This book is not available for borrowing.") := by
  refine ⟨?_, ?_, rfl, rfl⟩
  · intro books members ts isbn email txDate today ts2 b h hfind
    obtain ⟨book, member, hb, hm, hlt, hts2⟩ :=
      borrow_ok_inversion books members ts isbn email txDate today ts2 h
    have hbb : book = b := by
      rw [hfind] at hb
      exact (Option.some.inj hb).symm
    subst hbb hts2
    rw [countActive_append_one]
    simp only [beq_self_eq_true, Option.isNone_none, Bool.and_self, if_pos]
    push_cast
    omega
  · intro books members ts isbn email txDate today ts2 hnd hinv h b hbmem
    obtain ⟨book, member, hb, hm, hlt, hts2⟩ :=
      borrow_ok_inversion books members ts isbn email txDate today ts2 h
    subst hts2
    by_cases hbi : b.isbn = isbn
    · have hfind : books.find? (fun x => x.isbn == isbn) = some b :=
        find?_key_of_nodup books isbn b hnd hbmem hbi
      have hbb : book = b := by
        rw [hfind] at hb
        exact (Option.some.inj hb).symm
      subst hbb
      rw [hbi, countActive_append_one]
      simp only [beq_self_eq_true, Option.isNone_none, Bool.and_self, if_pos]
      push_cast
      omega
    · rw [countActive_append_one]
      have hne : (isbn == b.isbn) = false :=
        beq_eq_false_iff_ne.mpr (Ne.symm hbi)
      simp only [hne, Bool.false_and, if_neg, Bool.false_eq_true,
        not_false_iff, Nat.add_zero]
      exact hinv b hbmem

/-- C1 witness: after the accepted first borrow the active count for the
ISBN is within the book quantity. -/
theorem borrow_enforces_quantity_bound_witness :
    (countActive [trFirst] ("9780306406157") : Int) ≤ bkOne.quantity :=
  borrow_enforces_quantity_bound.1 [bkOne] [memA, memB] []
    ("9780306406157") ("alice@example.com") day1 day1 [trFirst] bkOne
    rfl rfl

end LMS
